import Mathlib

/-!
Verification of the agent orchestration layer of
`backend/core/ai_agents.py` (classes `AIAgent` and `AIAgentManager`).

The Python source is shallowly embedded: enumerations become inductive
types, dataclasses become structures, JSON values become an inductive
`Json` type, and the effectful calls that `AIAgent.process` awaits
(cache get/set, the task-type handler built on the routing client) are
passed in as an explicit environment of `Except`-valued outcomes, so
that the `try/except` control flow of the source is the content of the
Lean definitions.  Machine floats appearing in the source
(`0.85`, `0.8`, `0.5`, `0.0`) are modelled as exact rationals.
-/

namespace AIAgents

/-- Worker execution status, from the `AgentStatus` enum
(`ai_agents.py` lines 24-30). -/
inductive AgentStatus where
  | idle
  | processing
  | completed
  | failed
  | timeout
deriving DecidableEq, Repr

/-- Task types, from the `AgentType` enum (`ai_agents.py` lines 32-41). -/
inductive AgentType where
  | contentCreator
  | complianceChecker
  | brandVoiceValidator
  | socialMediaOptimizer
  | healthClaimsValidator
  | contentModerator
  | analyticsProcessor
  | schedulerOptimizer
deriving DecidableEq, Repr

/-- The string `value` of each `AgentType` enum member. -/
def AgentType.value : AgentType → String
  | .contentCreator => "content_creator"
  | .complianceChecker => "compliance_checker"
  | .brandVoiceValidator => "brand_voice_validator"
  | .socialMediaOptimizer => "social_media_optimizer"
  | .healthClaimsValidator => "health_claims_validator"
  | .contentModerator => "content_moderator"
  | .analyticsProcessor => "analytics_processor"
  | .schedulerOptimizer => "scheduler_optimizer"

/-- JSON-like Python values (the payloads stored in `input_data`,
`context`, results and metadata).  Python dicts are modelled as
association lists in insertion order; numbers are modelled as integers
(the claims under study never depend on non-integer numerics inside
payloads). -/
inductive Json where
  | null
  | bool (b : Bool)
  | num (n : Int)
  | str (s : String)
  | arr (xs : List Json)
  | obj (kvs : List (String × Json))

/-- Python truthiness of a JSON value, as tested by
`if cached_result:` on line 155 of the source: `None`, `False`, `0`,
`""`, `[]` and `` \x7b\x7d `` are falsy. -/
def Json.isTruthy : Json → Bool
  | .null => false
  | .bool b => b
  | .num n => n != 0
  | .str s => !s.isEmpty
  | .arr xs => !xs.isEmpty
  | .obj kvs => !kvs.isEmpty

/-- Render a JSON string literal (model of the quoting done by
`json.dumps`; only the two characters that always need an escape are
escaped, which is all the determinism arguments below require). -/
def jsonQuote (s : String) : String :=
  "\"" ++ String.join (s.data.map (fun c =>
    if c = '"' then "\\\"" else if c = '\\' then "\\\\" else String.singleton c)) ++ "\""

/-- Comparison used by `json.dumps(..., sort_keys=True)`: serialized
object entries are emitted in nondecreasing key order. -/
def keyLe (p q : String × String) : Prop := p.1 ≤ q.1

instance : DecidableRel keyLe := fun p q => inferInstanceAs (Decidable (p.1 ≤ q.1))

instance : IsTotal (String × String) keyLe := ⟨fun p q => le_total p.1 q.1⟩

instance : IsTrans (String × String) keyLe := ⟨fun _ _ _ h₁ h₂ => le_trans h₁ h₂⟩

/-- Render a serialized `key: value` member of a JSON object. -/
def renderPair (p : String × String) : String := jsonQuote p.1 ++ ": " ++ p.2

/-- Model of `json.dumps(value, sort_keys=True)` (used by
`AIAgent._generate_cache_key`, line 670): object members are sorted by
key before being rendered, so the output is independent of dict
insertion order. -/
def dumps : Json → String
  | Json.null => "null"
  | Json.bool true => "true"
  | Json.bool false => "false"
  | Json.num n => toString n
  | Json.str s => jsonQuote s
  | Json.arr xs =>
      "[" ++ String.intercalate ", " (xs.attach.map (fun x => dumps x.1)) ++ "]"
  | Json.obj kvs =>
      "\x7b" ++ String.intercalate ", "
        ((List.insertionSort keyLe
          (kvs.attach.map (fun kv => (kv.1.1, dumps kv.1.2)))).map renderPair) ++ "\x7d"
termination_by j => sizeOf j
decreasing_by
  · have := List.sizeOf_lt_of_mem x.2
    simp only [Json.arr.sizeOf_spec]
    omega
  · obtain ⟨⟨k, v⟩, hmem⟩ := kv
    have := List.sizeOf_lt_of_mem hmem
    simp only [Prod.mk.sizeOf_spec] at this
    simp only [Json.obj.sizeOf_spec]
    omega

/-- Deterministic stand-in for `hashlib.md5(key_string.encode()).hexdigest()`
(line 671).  Every property proved below depends only on the digest
being a function of the serialized string, never on the internals of
MD5, so the digest is modelled by a simple byte-fold rendered in
hexadecimal. -/
def md5Model (s : String) : String :=
  String.mk (Nat.toDigits 16
    (s.data.foldl (fun a c => (a * 131 + c.toNat) % (2 ^ 128)) 5381))

/-- The `AgentRequest` dataclass (`ai_agents.py` lines 43-52). -/
structure AgentRequest where
  agent_type : AgentType
  input_data : List (String × Json)
  context : Option (List (String × Json)) := none
  priority : Int := 0
  timeout : Int := 30
  retry_count : Int := 3
  metadata : Option (List (String × Json)) := none

/-- The JSON value `json.dumps` sees for `request.context`
(`None` serializes as `null`). -/
def contextJson : Option (List (String × Json)) → Json
  | none => Json.null
  | some kvs => Json.obj kvs

/-- `AIAgent._generate_cache_key` (lines 663-671): serialize the dict
`\x7b"agent_type": self.agent_type.value, "input_data": request.input_data,
"context": request.context\x7d` with `sort_keys=True` and hash it.  Only the
worker's type and the request's `input_data` and `context` enter the key;
`priority`, `timeout`, `retry_count` and `metadata` do not. -/
def generateCacheKey (tp : AgentType) (req : AgentRequest) : String :=
  md5Model (dumps (Json.obj
    [("agent_type", Json.str tp.value),
     ("input_data", Json.obj req.input_data),
     ("context", contextJson req.context)]))

/-- Two sorted association lists over the same multiset of entries and
with duplicate-free keys are equal (the key step behind `sort_keys=True`
making serialization order-independent). -/
theorem sorted_perm_nodupKeys_eq :
    ∀ {l₁ l₂ : List (String × String)}, l₁.Perm l₂ →
      (l₁.map Prod.fst).Nodup → l₁.Sorted keyLe → l₂.Sorted keyLe → l₁ = l₂ := by
  intro l₁
  induction l₁ with
  | nil =>
    intro l₂ hp _ _ _
    exact (List.Perm.eq_nil hp.symm).symm
  | cons a t₁ ih =>
    intro l₂ hp hn s₁ s₂
    match l₂ with
    | [] => exact absurd (List.Perm.eq_nil hp) (by simp)
    | b :: t₂ =>
      have hab : a = b := by
        by_contra hne
        have ha : a ∈ b :: t₂ := hp.subset (List.mem_cons_self a t₁)
        have hb : b ∈ a :: t₁ := hp.symm.subset (List.mem_cons_self b t₂)
        have ha' : a ∈ t₂ := by
          rcases List.mem_cons.mp ha with h | h
          · exact absurd h hne
          · exact h
        have hb' : b ∈ t₁ := by
          rcases List.mem_cons.mp hb with h | h
          · exact absurd h.symm hne
          · exact h
        have h₁ : a.1 ≤ b.1 := List.rel_of_sorted_cons s₁ b hb'
        have h₂ : b.1 ≤ a.1 := List.rel_of_sorted_cons s₂ a ha'
        have hkey : a.1 = b.1 := le_antisymm h₁ h₂
        have hnotin : a.1 ∉ t₁.map Prod.fst := by
          simp only [List.map_cons, List.nodup_cons] at hn
          exact hn.1
        exact hnotin (hkey ▸ List.mem_map_of_mem Prod.fst hb')
      subst hab
      have ht : t₁.Perm t₂ := hp.cons_inv
      have hn' : (t₁.map Prod.fst).Nodup := by
        simp only [List.map_cons, List.nodup_cons] at hn
        exact hn.2
      rw [ih ht hn' s₁.of_cons s₂.of_cons]

/-- Sorting by key is invariant under permutation of entries when the
keys are duplicate-free. -/
theorem insertionSort_eq_of_perm {l₁ l₂ : List (String × String)}
    (h : l₁.Perm l₂) (hn : (l₁.map Prod.fst).Nodup) :
    List.insertionSort keyLe l₁ = List.insertionSort keyLe l₂ := by
  refine sorted_perm_nodupKeys_eq ?_ ?_ ?_ ?_
  · exact (List.perm_insertionSort keyLe l₁).trans
      (h.trans (List.perm_insertionSort keyLe l₂).symm)
  · exact (((List.perm_insertionSort keyLe l₁).map Prod.fst).nodup_iff).mpr hn
  · exact List.sorted_insertionSort keyLe l₁
  · exact List.sorted_insertionSort keyLe l₂

/-- Unfolding lemma for `dumps` on objects, with the `attach` used for
termination eliminated. -/
theorem dumps_obj (kvs : List (String × Json)) :
    dumps (Json.obj kvs) =
      "\x7b" ++ String.intercalate ", "
        ((List.insertionSort keyLe
          (kvs.map (fun kv => (kv.1, dumps kv.2)))).map renderPair) ++ "\x7d" := by
  rw [dumps]
  congr 2
  rw [List.attach_map_coe kvs (fun kv => (kv.1, dumps kv.2))]

/-- `dumps` of an object is unchanged by permuting its (duplicate-free
keyed) entries. -/
theorem dumps_obj_perm {kvs₁ kvs₂ : List (String × Json)}
    (h : kvs₁.Perm kvs₂) (hn : (kvs₁.map Prod.fst).Nodup) :
    dumps (Json.obj kvs₁) = dumps (Json.obj kvs₂) := by
  rw [dumps_obj, dumps_obj]
  have hperm := h.map (fun kv => (kv.1, dumps kv.2))
  have hn' : ((kvs₁.map (fun kv => (kv.1, dumps kv.2))).map Prod.fst).Nodup := by
    simpa [List.map_map, Function.comp] using hn
  rw [insertionSort_eq_of_perm hperm hn']

/-- Python exceptions as seen by the `except` clauses of
`AIAgent.process` (lines 196-215): `asyncio.TimeoutError` is matched
first, every other `Exception` second. -/
inductive PyExc where
  | timeoutError
  | other (msg : String)
deriving DecidableEq, Repr

/-- `str(e)` for a modelled exception (`str(asyncio.TimeoutError())`
is the empty string). -/
def PyExc.str : PyExc → String
  | PyExc.timeoutError => ""
  | PyExc.other m => m

/-- The `AgentResponse` dataclass (`ai_agents.py` lines 57-67) with its
field defaults; the float fields are modelled as rationals. -/
structure AgentResponse where
  agent_id : String
  agent_type : AgentType
  status : AgentStatus
  result : Option Json := none
  error : Option String := none
  confidence_score : Rat := 0
  processing_time : Rat := 0
  metadata : Option (List (String × Json)) := none

/-- Outcomes of the awaited effectful calls inside `AIAgent.process`,
supplied as an explicit environment: the result (or raised exception)
of `cache_service.get`, of the task-type handler `_process_by_type`
(which wraps the routing-client call), and of `cache_service.set`.
`elapsed` is the `time.time() - start_time` value observed at whichever
point the source reads the clock; the claims depend only on the value
recorded in the response.  (`_store_result`, lines 679-698, catches its
own exceptions internally and only logs, so it is not modelled.) -/
structure WEnv where
  cacheGet : Except PyExc (Option Json)
  live : Except PyExc Json
  cacheSet : Except PyExc Unit
  elapsed : Rat

/-- `AIAgent._calculate_confidence` (lines 673-677): ignores its
argument and returns the constant `0.85` (modelled as the exact
rational 17/20). -/
def calculateConfidence (_result : Json) : Rat := 17 / 20

/-- The body of the `try:` block of `AIAgent.process` (lines 147-194),
returning the response *and* the worker status in force at the return.
The worker status is set to PROCESSING on entry (line 148); on the
cache-hit early return (lines 155-164) the source returns *without*
updating it, so that path reports `AgentStatus.processing`; the normal
path sets COMPLETED (line 184) before returning. -/
def processBody (agentId : String) (tp : AgentType) (env : WEnv)
    (req : AgentRequest) : Except PyExc (AgentResponse × AgentStatus) := do
  let _cacheKey := generateCacheKey tp req
  let cached ← env.cacheGet
  match cached with
  | some v =>
    if v.isTruthy then
      pure ({ agent_id := agentId, agent_type := tp,
              status := AgentStatus.completed, result := some v,
              processing_time := env.elapsed,
              metadata := some [("cache_hit", Json.bool true)] },
            AgentStatus.processing)
    else do
      let result ← env.live
      let _ ← env.cacheSet
      pure ({ agent_id := agentId, agent_type := tp,
              status := AgentStatus.completed, result := some result,
              confidence_score := calculateConfidence result,
              processing_time := env.elapsed,
              metadata := some [("cache_hit", Json.bool false)] },
            AgentStatus.completed)
  | none => do
    let result ← env.live
    let _ ← env.cacheSet
    pure ({ agent_id := agentId, agent_type := tp,
            status := AgentStatus.completed, result := some result,
            confidence_score := calculateConfidence result,
            processing_time := env.elapsed,
            metadata := some [("cache_hit", Json.bool false)] },
          AgentStatus.completed)

/-- `AIAgent.process` (lines 143-215): the `try:` body with its two
`except` clauses.  `asyncio.TimeoutError` yields a TIMEOUT response
with the fixed error text (lines 196-204); any other exception yields a
FAILED response carrying `str(e)` (lines 205-215).  The second
component is the worker's `self.status` when the call returns. -/
def process (agentId : String) (tp : AgentType) (env : WEnv)
    (req : AgentRequest) : AgentResponse × AgentStatus :=
  match processBody agentId tp env req with
  | Except.ok r => r
  | Except.error PyExc.timeoutError =>
      ({ agent_id := agentId, agent_type := tp, status := AgentStatus.timeout,
         error := some "Agent processing timeout",
         processing_time := env.elapsed }, AgentStatus.timeout)
  | Except.error (PyExc.other m) =>
      ({ agent_id := agentId, agent_type := tp, status := AgentStatus.failed,
         error := some m,
         processing_time := env.elapsed }, AgentStatus.failed)

/-- A pooled worker: identifier, fixed task type, mutable status
(the `AIAgent` object's pool-relevant state). -/
structure Worker where
  agent_id : String
  agent_type : AgentType
  status : AgentStatus
deriving DecidableEq, Repr

/-- `AIAgentManager._return_agent` (lines 814-822): only a worker whose
status is COMPLETED, FAILED or TIMEOUT is reset to IDLE and appended to
its type's idle list; any other status leaves the worker and the pool
untouched.  Returns the (possibly updated) worker and pool. -/
def returnAgent (agent : Worker) (pool : List Worker) : Worker × List Worker :=
  if agent.status = AgentStatus.completed ∨ agent.status = AgentStatus.failed
      ∨ agent.status = AgentStatus.timeout then
    let a := { agent with status := AgentStatus.idle }
    (a, pool ++ [a])
  else
    (agent, pool)

/-- Count of tracked workers whose status is not FAILED
(`active_agents`, line 844). -/
def activeCount (agents : List AgentStatus) : Nat :=
  (agents.filter (fun s => s ≠ AgentStatus.failed)).length

/-- `AIAgentManager.health_check` (lines 841-856): "healthy" when the
non-FAILED workers are at least 80% of the total, "degraded" at 50%,
"unhealthy" otherwise.  The source compares against
`total_agents * 0.8` and `total_agents * 0.5` in floats; for the
integer counts involved those comparisons agree with the exact
rational thresholds used here. -/
def healthCheck (agents : List AgentStatus) : String :=
  if (activeCount agents : Rat) ≥ (agents.length : Rat) * (4 / 5) then "healthy"
  else if (activeCount agents : Rat) ≥ (agents.length : Rat) * (1 / 2) then "degraded"
  else "unhealthy"

/-- `AIAgentManager.process_batch` (lines 759-796): one
`process_request` task per request, gathered with
`return_exceptions=True` so results come back in input order; an
exception at index `i` is converted to a FAILED response built from
`requests[i]` with `agent_id="unknown"` and `error=str(e)`.  `outcome`
gives each task's result or escaped exception. -/
def processBatch (outcome : AgentRequest → Except PyExc AgentResponse)
    (requests : List AgentRequest) : List AgentResponse :=
  List.zipWith
    (fun response req =>
      match response with
      | Except.ok r => r
      | Except.error e =>
          { agent_id := "unknown", agent_type := req.agent_type,
            status := AgentStatus.failed, error := some e.str })
    (requests.map outcome) requests

/-- `dict.get(k)` on a modelled Python dict. -/
def jsonLookup (kvs : List (String × Json)) (k : String) : Option Json :=
  (kvs.find? (fun kv => kv.1 == k)).map (fun kv => kv.2)

/-- `dict.get(k, default)`. -/
def lookupD (kvs : List (String × Json)) (k : String) (d : Json) : Json :=
  (jsonLookup kvs k).getD d

/-- `d[k] = v` on a modelled Python dict: replace in place when the key
exists, append otherwise. -/
def setKey (kvs : List (String × Json)) (k : String) (v : Json) :
    List (String × Json) :=
  if kvs.any (fun kv => kv.1 == k) then
    kvs.map (fun kv => if kv.1 == k then (k, v) else kv)
  else
    kvs ++ [(k, v)]

/-- Python `len` on a JSON value: defined for strings, lists and dicts,
a `TypeError` otherwise (as raised by `len(content)` on line 514 when
the value has no length). -/
def jsonLen : Json → Except PyExc Nat
  | Json.str s => Except.ok s.length
  | Json.arr xs => Except.ok xs.length
  | Json.obj kvs => Except.ok kvs.length
  | _ => Except.error (PyExc.other "TypeError: object has no len()")

/-- The raw structured output returned by
`RequestyAIClient.route_request`: the fields the handlers consume
(`content`, `model_used`, `tokens_used`), each possibly absent. -/
structure RouteResponse where
  content : Option String := none
  model_used : Option String := none
  tokens_used : Option Int := none

/-- Environment of a task-type handler: the outcome of its single
routing-client call, the behaviour of `json.loads` on the raw content
(`none` models `json.JSONDecodeError`), and the
`datetime.utcnow().isoformat()` timestamp.  The prompt each handler
builds is a pure string consumed only by the routing call, whose
outcome is environment-supplied, so the prompt text does not appear in
the embedding. -/
structure HandlerEnv where
  route : Except PyExc RouteResponse
  loads : String → Option Json
  now : String

/-- Modelled from the spec: `BRAND_GUIDELINES["required_disclaimers"]`
is imported from `core.config`, whose static guideline tables are not
among the provided sources.  It is a fixed list of disclaimer strings;
the claims depend only on the handlers returning this constant, never
on its contents. -/
def requiredDisclaimers : Json :=
  Json.arr [Json.str "This statement has not been evaluated by the FDA",
            Json.str "Individual results may vary"]

/-- `AIAgent._process_content_creation` (lines 238-322), from the
routing call onward: parse the raw content as JSON; on success attach
the metadata dict (a non-dict parse makes the item assignment on line
291 raise `TypeError`); on `json.JSONDecodeError` return the degraded
fallback of lines 304-322 built from the raw text (note the fallback
re-reads the content with default `""`, line 307). -/
def processContentCreation (agentId : String) (env : HandlerEnv)
    (req : AgentRequest) : Except PyExc Json := do
  let contentType := lookupD req.input_data "type" (Json.str "blog_post")
  let targetPlatform := lookupD req.input_data "platform" (Json.str "web")
  let targetAudience := lookupD req.input_data "audience" (Json.str "general")
  let resp ← env.route
  let meta := Json.obj
    [("created_by", Json.str agentId),
     ("created_at", Json.str env.now),
     ("content_type", contentType),
     ("platform", targetPlatform),
     ("audience", targetAudience),
     ("model_used", Json.str (resp.model_used.getD "unknown")),
     ("tokens_used", Json.num (resp.tokens_used.getD 0))]
  match env.loads (resp.content.getD "\x7b\x7d") with
  | some (Json.obj kvs) => pure (Json.obj (setKey kvs "metadata" meta))
  | some _ =>
      Except.error (PyExc.other "TypeError: object does not support item assignment")
  | none => pure (Json.obj
      [("title", Json.str "Generated Content"),
       ("content", Json.str (resp.content.getD "")),
       ("summary", Json.str "AI-generated content"),
       ("tags", Json.arr []),
       ("call_to_action", Json.str ""),
       ("disclaimers", requiredDisclaimers),
       ("seo_keywords", Json.arr []),
       ("metadata", meta)])

/-- `AIAgent._process_compliance_check` (lines 324-390), from the
routing call onward; the fallback of lines 382-390 is a fixed failed
assessment (with no metadata key). -/
def processComplianceCheck (agentId : String) (env : HandlerEnv)
    (req : AgentRequest) : Except PyExc Json := do
  let _content := lookupD req.input_data "content" (Json.str "")
  let _contentType := lookupD req.input_data "type" (Json.str "general")
  let resp ← env.route
  let meta := Json.obj
    [("analyzed_by", Json.str agentId),
     ("analyzed_at", Json.str env.now),
     ("model_used", Json.str (resp.model_used.getD "unknown"))]
  match env.loads (resp.content.getD "\x7b\x7d") with
  | some (Json.obj kvs) => pure (Json.obj (setKey kvs "metadata" meta))
  | some _ =>
      Except.error (PyExc.other "TypeError: object does not support item assignment")
  | none => pure (Json.obj
      [("compliance_score", Json.num 0),
       ("is_compliant", Json.bool false),
       ("findings", Json.arr [Json.obj
          [("type", Json.str "error"),
           ("description", Json.str "Analysis failed")]]),
       ("required_disclaimers", requiredDisclaimers),
       ("brand_alignment", Json.num 0),
       ("health_claims_valid", Json.bool false),
       ("overall_assessment", Json.str "Analysis failed - manual review required")])

/-- `AIAgent._process_brand_voice_validation` (lines 392-454), from the
routing call onward; the fallback of lines 445-454 is a fixed
all-zero validation. -/
def processBrandVoiceValidation (agentId : String) (env : HandlerEnv)
    (req : AgentRequest) : Except PyExc Json := do
  let _content := lookupD req.input_data "content" (Json.str "")
  let resp ← env.route
  let meta := Json.obj
    [("validated_by", Json.str agentId),
     ("validated_at", Json.str env.now),
     ("model_used", Json.str (resp.model_used.getD "unknown"))]
  match env.loads (resp.content.getD "\x7b\x7d") with
  | some (Json.obj kvs) => pure (Json.obj (setKey kvs "metadata" meta))
  | some _ =>
      Except.error (PyExc.other "TypeError: object does not support item assignment")
  | none => pure (Json.obj
      [("voice_score", Json.num 0),
       ("tone_score", Json.num 0),
       ("language_score", Json.num 0),
       ("overall_brand_score", Json.num 0),
       ("is_brand_compliant", Json.bool false),
       ("recommendations", Json.arr [Json.str "Manual review required"]),
       ("strengths", Json.arr []),
       ("areas_for_improvement", Json.arr [Json.str "Analysis failed"])])

/-- `AIAgent._process_social_media_optimization` (lines 456-516), from
the routing call onward.  The fallback of lines 508-516 embeds the
*input* content and its `len`; `len(content)` raises `TypeError` when
the input's "content" value has no length. -/
def processSocialMediaOptimization (agentId : String) (env : HandlerEnv)
    (req : AgentRequest) : Except PyExc Json := do
  let content := lookupD req.input_data "content" (Json.str "")
  let platform := lookupD req.input_data "platform" (Json.str "facebook")
  let resp ← env.route
  let meta := Json.obj
    [("optimized_by", Json.str agentId),
     ("optimized_at", Json.str env.now),
     ("platform", platform),
     ("model_used", Json.str (resp.model_used.getD "unknown"))]
  match env.loads (resp.content.getD "\x7b\x7d") with
  | some (Json.obj kvs) => pure (Json.obj (setKey kvs "metadata" meta))
  | some _ =>
      Except.error (PyExc.other "TypeError: object does not support item assignment")
  | none => do
      let n ← jsonLen content
      pure (Json.obj
        [("optimized_content", content),
         ("hashtags", Json.arr []),
         ("posting_time_recommendations", Json.arr []),
         ("engagement_tips", Json.arr []),
         ("visual_recommendations", Json.arr []),
         ("character_count", Json.num (n : Int)),
         ("platform_score", Json.num 0)])

/-- `AIAgent._process_health_claims_validation` (lines 518-574), from
the routing call onward; the fallback of lines 568-574 is a fixed
non-compliant assessment. -/
def processHealthClaimsValidation (agentId : String) (env : HandlerEnv)
    (req : AgentRequest) : Except PyExc Json := do
  let _content := lookupD req.input_data "content" (Json.str "")
  let resp ← env.route
  let meta := Json.obj
    [("validated_by", Json.str agentId),
     ("validated_at", Json.str env.now),
     ("model_used", Json.str (resp.model_used.getD "unknown"))]
  match env.loads (resp.content.getD "\x7b\x7d") with
  | some (Json.obj kvs) => pure (Json.obj (setKey kvs "metadata" meta))
  | some _ =>
      Except.error (PyExc.other "TypeError: object does not support item assignment")
  | none => pure (Json.obj
      [("health_claims_found", Json.arr []),
       ("claims_validation", Json.arr []),
       ("overall_compliance", Json.bool false),
       ("risk_level", Json.str "unknown"),
       ("recommendations", Json.arr [Json.str "Manual review required"])])

/-- `AIAgent._process_content_moderation` (lines 576-630), from the
routing call onward; the fallback of lines 624-630 is a fixed
pending moderation verdict. -/
def processContentModeration (agentId : String) (env : HandlerEnv)
    (req : AgentRequest) : Except PyExc Json := do
  let _content := lookupD req.input_data "content" (Json.str "")
  let resp ← env.route
  let meta := Json.obj
    [("moderated_by", Json.str agentId),
     ("moderated_at", Json.str env.now),
     ("model_used", Json.str (resp.model_used.getD "unknown"))]
  match env.loads (resp.content.getD "\x7b\x7d") with
  | some (Json.obj kvs) => pure (Json.obj (setKey kvs "metadata" meta))
  | some _ =>
      Except.error (PyExc.other "TypeError: object does not support item assignment")
  | none => pure (Json.obj
      [("is_appropriate", Json.bool false),
       ("moderation_score", Json.num 0),
       ("flags", Json.arr [Json.obj
          [("type", Json.str "error"),
           ("description", Json.str "Moderation failed")]]),
       ("recommendations", Json.arr [Json.str "Manual review required"]),
       ("approval_status", Json.str "pending")])

/-- Relating two optional context dicts: both absent, or permutations
of one another with duplicate-free keys. -/
def contextRel : Option (List (String × Json)) → Option (List (String × Json)) → Prop
  | none, none => True
  | some c₁, some c₂ => c₁.Perm c₂ ∧ (c₁.map Prod.fst).Nodup
  | _, _ => False

/-- C1: two `AgentRequest`s with equal (up to dict entry order)
`input_data` and `context` receive the same cache key from
`_generate_cache_key` on a worker of any one type; `priority`,
`timeout`, `retry_count` and `metadata` play no role, and dict key
ordering in `input_data`/`context` does not affect the key. -/
theorem cache_key_request_invariance (tp : AgentType) (r₁ r₂ : AgentRequest)
    (hin : r₁.input_data.Perm r₂.input_data)
    (hnod : (r₁.input_data.map Prod.fst).Nodup)
    (hctx : contextRel r₁.context r₂.context) :
    generateCacheKey tp r₁ = generateCacheKey tp r₂ := by
  unfold generateCacheKey
  congr 1
  have hin' : dumps (Json.obj r₁.input_data) = dumps (Json.obj r₂.input_data) :=
    dumps_obj_perm hin hnod
  have hctx' : dumps (contextJson r₁.context) = dumps (contextJson r₂.context) := by
    cases hc₁ : r₁.context with
    | none =>
      cases hc₂ : r₂.context with
      | none => rfl
      | some c₂ => rw [hc₁, hc₂] at hctx; simp [contextRel] at hctx
    | some c₁ =>
      cases hc₂ : r₂.context with
      | none => rw [hc₁, hc₂] at hctx; simp [contextRel] at hctx
      | some c₂ =>
        rw [hc₁, hc₂] at hctx
        exact dumps_obj_perm hctx.1 hctx.2
  rw [dumps_obj, dumps_obj]
  simp only [List.map_cons, List.map_nil]
  rw [hin', hctx']

/-- Concrete requests for the C1 witness: same type, same `input_data`
entries in swapped order, same context; different `priority`,
`timeout`, `retry_count` and `metadata`. -/
def reqA : AgentRequest :=
  { agent_type := AgentType.contentCreator,
    input_data := [("brief", Json.str "X"), ("type", Json.str "blog_post")],
    context := some [("locale", Json.str "en")] }

/-- Second request of the C1 witness pair. -/
def reqB : AgentRequest :=
  { agent_type := AgentType.contentCreator,
    input_data := [("type", Json.str "blog_post"), ("brief", Json.str "X")],
    context := some [("locale", Json.str "en")],
    priority := 9, timeout := 1, retry_count := 0,
    metadata := some [("trace_id", Json.str "t-1")] }

/-- Witness for C1: two requests differing in entry order, priority,
timeout, retry count and metadata hash to the same cache key. -/
theorem cache_key_request_invariance_witness :
    generateCacheKey AgentType.contentCreator reqA
      = generateCacheKey AgentType.contentCreator reqB :=
  cache_key_request_invariance AgentType.contentCreator reqA reqB
    (List.Perm.swap _ _ _) (by decide) ⟨List.Perm.refl _, by decide⟩

/-- Request used by the C2 counterexample and witness. -/
def reqC2 : AgentRequest :=
  { agent_type := AgentType.complianceChecker,
    input_data := [("content", Json.str "hello")] }

/-- Environment where the task-type handler raises
`asyncio.TimeoutError` (cache misses cleanly). -/
def envC2 : WEnv :=
  { cacheGet := Except.ok none, live := Except.error PyExc.timeoutError,
    cacheSet := Except.ok (), elapsed := 0 }

/-- C2 counterexample: a handler that raises `asyncio.TimeoutError` is
not converted to FAILED — `AIAgent.process` returns a TIMEOUT response
(first `except` clause, lines 196-204), so "any exception becomes
FAILED" is false as stated. -/
theorem process_timeout_exception_not_failed :
    (process "w1" AgentType.complianceChecker envC2 reqC2).1.status
        = AgentStatus.timeout
    ∧ (process "w1" AgentType.complianceChecker envC2 reqC2).1.status
        ≠ AgentStatus.failed :=
  ⟨rfl, by decide⟩

/-- C2 (amended): `AIAgent.process` converts every exception raised by
the routing client or the task-type handler into a returned response —
`asyncio.TimeoutError` into a TIMEOUT response with the fixed error
text, every other exception into a FAILED response whose error field is
`str(e)` — and never propagates the exception. -/
theorem process_exception_conversion (agentId : String) (tp : AgentType)
    (env : WEnv) (req : AgentRequest) (e : PyExc)
    (hget : env.cacheGet = Except.ok none)
    (hlive : env.live = Except.error e) :
    (e = PyExc.timeoutError →
      (process agentId tp env req).1.status = AgentStatus.timeout
      ∧ (process agentId tp env req).1.error = some "Agent processing timeout")
    ∧ (∀ m, e = PyExc.other m →
      (process agentId tp env req).1.status = AgentStatus.failed
      ∧ (process agentId tp env req).1.error = some m) := by
  unfold process processBody
  rw [hget, hlive]
  cases e with
  | timeoutError => exact ⟨fun _ => ⟨rfl, rfl⟩, fun m h => by simp at h⟩
  | other m =>
    refine ⟨fun h => by simp at h, fun m' h => ?_⟩
    cases h
    exact ⟨rfl, rfl⟩

/-- Environment where the handler raises an ordinary exception. -/
def envC2b : WEnv :=
  { cacheGet := Except.ok none, live := Except.error (PyExc.other "boom"),
    cacheSet := Except.ok (), elapsed := 0 }

/-- Witness for the amended C2: an ordinary handler exception becomes a
FAILED response carrying its description. -/
theorem process_exception_conversion_witness :
    (process "w1" AgentType.complianceChecker envC2b reqC2).1.status
        = AgentStatus.failed
    ∧ (process "w1" AgentType.complianceChecker envC2b reqC2).1.error
        = some "boom" :=
  (process_exception_conversion "w1" AgentType.complianceChecker envC2b reqC2
    (PyExc.other "boom") rfl rfl).2 "boom" rfl

/-- `process_batch` is pointwise: each output position depends only on
the request at that position. -/
theorem processBatch_eq_map (outcome : AgentRequest → Except PyExc AgentResponse)
    (requests : List AgentRequest) :
    processBatch outcome requests = requests.map (fun req =>
      match outcome req with
      | Except.ok r => r
      | Except.error e =>
          { agent_id := "unknown", agent_type := req.agent_type,
            status := AgentStatus.failed, error := some e.str }) := by
  unfold processBatch
  induction requests with
  | nil => rfl
  | cons a t ih => simpa using ih

/-- C3: `process_batch` over n requests returns exactly n responses, in
input order: position i carries the i-th task's response, or, when that
task escaped with an exception, a FAILED response built from
`requests[i]` and `str(e)`; other positions are unaffected. -/
theorem process_batch_length_and_order
    (outcome : AgentRequest → Except PyExc AgentResponse)
    (requests : List AgentRequest) :
    (processBatch outcome requests).length = requests.length
    ∧ ∀ i : Nat, (processBatch outcome requests)[i]?
        = (requests[i]?).map (fun req =>
            match outcome req with
            | Except.ok r => r
            | Except.error e =>
                { agent_id := "unknown", agent_type := req.agent_type,
                  status := AgentStatus.failed, error := some e.str }) := by
  rw [processBatch_eq_map]
  exact ⟨List.length_map _ _, fun i => List.getElem?_map _ _ i⟩

/-- Request whose processing hits the cache. -/
def reqC4 : AgentRequest :=
  { agent_type := AgentType.contentCreator,
    input_data := [("brief", Json.str "X")] }

/-- Environment with a truthy cached value. -/
def envC4 : WEnv :=
  { cacheGet := Except.ok (some (Json.obj [("title", Json.str "cached")])),
    live := Except.ok (Json.obj []), cacheSet := Except.ok (), elapsed := 0 }

/-- C4 failing input: on a cache hit, `AIAgent.process` returns a
COMPLETED response tagged `cache_hit=true` (lines 155-164) *without*
executing `self.status = AgentStatus.COMPLETED`, so the worker's status
is still PROCESSING when the call returns, and `_return_agent`
(lines 814-822) therefore neither resets it to IDLE nor appends it back
to the idle pool — the worker is leaked, contrary to the claim. -/
theorem cache_hit_worker_not_released :
    (process "w1" AgentType.contentCreator envC4 reqC4).1.status
        = AgentStatus.completed
    ∧ (process "w1" AgentType.contentCreator envC4 reqC4).1.metadata
        = some [("cache_hit", Json.bool true)]
    ∧ (process "w1" AgentType.contentCreator envC4 reqC4).2
        = AgentStatus.processing
    ∧ returnAgent
        { agent_id := "w1", agent_type := AgentType.contentCreator,
          status := (process "w1" AgentType.contentCreator envC4 reqC4).2 } []
        = ({ agent_id := "w1", agent_type := AgentType.contentCreator,
             status := AgentStatus.processing }, []) :=
  ⟨rfl, rfl, rfl, rfl⟩

/-- Request carrying a 1-second timeout budget. -/
def reqC5 : AgentRequest :=
  { agent_type := AgentType.contentCreator,
    input_data := [("brief", Json.str "X")], timeout := 1 }

/-- Environment in which processing succeeds after 100 seconds of
observed elapsed time; nothing in `AIAgent.process` compares elapsed
time against `request.timeout` (the field is never read), and no
`asyncio.wait_for` wraps the work. -/
def envC5 : WEnv :=
  { cacheGet := Except.ok none,
    live := Except.ok (Json.obj [("title", Json.str "t")]),
    cacheSet := Except.ok (), elapsed := 100 }

/-- C5 failing input: a request whose processing takes far longer than
its `timeout` budget still returns COMPLETED — the budget is never
enforced; a TIMEOUT response arises only if some awaited call itself
raises `asyncio.TimeoutError`. -/
theorem timeout_budget_not_enforced :
    (process "w1" AgentType.contentCreator envC5 reqC5).1.status
        = AgentStatus.completed
    ∧ (process "w1" AgentType.contentCreator envC5 reqC5).1.processing_time = 100
    ∧ ((reqC5.timeout : Rat)
        < (process "w1" AgentType.contentCreator envC5 reqC5).1.processing_time) :=
  ⟨rfl, rfl, by decide⟩

/-- Request used by the C6 counterexample and witness. -/
def reqC6 : AgentRequest :=
  { agent_type := AgentType.contentCreator,
    input_data := [("brief", Json.str "X")] }

/-- Environment whose cache `get` raises while the live call would
succeed. -/
def envC6 : WEnv :=
  { cacheGet := Except.error (PyExc.other "redis connection refused"),
    live := Except.ok (Json.obj [("title", Json.str "live result")]),
    cacheSet := Except.ok (), elapsed := 0 }

/-- C6 counterexample: a raising cache `get` is *not* treated as a miss
— the exception reaches the generic `except Exception` clause of
`AIAgent.process` (lines 205-215) and the request returns FAILED with
no result, even though the live call would have succeeded. -/
theorem cache_error_fails_request :
    (process "w1" AgentType.contentCreator envC6 reqC6).1.status
        = AgentStatus.failed
    ∧ (process "w1" AgentType.contentCreator envC6 reqC6).1.result = none
    ∧ (process "w1" AgentType.contentCreator envC6 reqC6).1.error
        = some "redis connection refused" :=
  ⟨rfl, rfl, rfl⟩

/-- C6 (amended): a cache error during `Worker.process` fails the
request (fail-closed): a raising `get` yields a FAILED response
carrying the error's description and no result; a raising `set` after a
successful live call likewise yields FAILED, discarding the live
result. -/
theorem cache_error_fail_closed (agentId : String) (tp : AgentType)
    (env : WEnv) (req : AgentRequest) (m : String) (j : Json) :
    (env.cacheGet = Except.error (PyExc.other m) →
      (process agentId tp env req).1.status = AgentStatus.failed
      ∧ (process agentId tp env req).1.error = some m
      ∧ (process agentId tp env req).1.result = none)
    ∧ (env.cacheGet = Except.ok none → env.live = Except.ok j →
       env.cacheSet = Except.error (PyExc.other m) →
      (process agentId tp env req).1.status = AgentStatus.failed
      ∧ (process agentId tp env req).1.error = some m
      ∧ (process agentId tp env req).1.result = none) := by
  constructor
  · intro h
    unfold process processBody
    rw [h]
    exact ⟨rfl, rfl, rfl⟩
  · intro h₁ h₂ h₃
    unfold process processBody
    rw [h₁, h₂, h₃]
    exact ⟨rfl, rfl, rfl⟩

/-- Environment whose cache `set` raises after a successful live
call. -/
def envC6b : WEnv :=
  { cacheGet := Except.ok none, live := Except.ok (Json.obj []),
    cacheSet := Except.error (PyExc.other "redis write refused"),
    elapsed := 0 }

/-- Witness for the amended C6, at both a raising `get` and a raising
`set`. -/
theorem cache_error_fail_closed_witness :
    ((process "w1" AgentType.contentCreator envC6 reqC6).1.status
        = AgentStatus.failed
      ∧ (process "w1" AgentType.contentCreator envC6 reqC6).1.error
          = some "redis connection refused"
      ∧ (process "w1" AgentType.contentCreator envC6 reqC6).1.result = none)
    ∧ ((process "w1" AgentType.contentCreator envC6b reqC6).1.status
        = AgentStatus.failed
      ∧ (process "w1" AgentType.contentCreator envC6b reqC6).1.error
          = some "redis write refused"
      ∧ (process "w1" AgentType.contentCreator envC6b reqC6).1.result = none) :=
  ⟨(cache_error_fail_closed "w1" AgentType.contentCreator envC6 reqC6
      "redis connection refused" (Json.obj [])).1 rfl,
   (cache_error_fail_closed "w1" AgentType.contentCreator envC6b reqC6
      "redis write refused" (Json.obj [])).2 rfl rfl rfl⟩

/-- C7: `_return_agent` re-pools a worker only from a terminal status:
a PROCESSING worker is returned unchanged and the idle list untouched,
and whenever the idle list does change, the worker's status was
COMPLETED, FAILED or TIMEOUT, it is reset to IDLE, and it is appended
(in its IDLE state) at the tail of the list. -/
theorem return_agent_only_terminal (agent : Worker) (pool : List Worker) :
    (agent.status = AgentStatus.processing →
      returnAgent agent pool = (agent, pool))
    ∧ ((returnAgent agent pool).2 ≠ pool →
        (agent.status = AgentStatus.completed ∨ agent.status = AgentStatus.failed
          ∨ agent.status = AgentStatus.timeout)
        ∧ (returnAgent agent pool).1.status = AgentStatus.idle
        ∧ (returnAgent agent pool).2
            = pool ++ [{ agent with status := AgentStatus.idle }]) := by
  unfold returnAgent
  by_cases h : agent.status = AgentStatus.completed ∨ agent.status = AgentStatus.failed
      ∨ agent.status = AgentStatus.timeout
  · rw [if_pos h]
    refine ⟨fun hp => ?_, fun _ => ⟨h, rfl, rfl⟩⟩
    rw [hp] at h
    rcases h with h | h | h <;> exact absurd h (by decide)
  · rw [if_neg h]
    exact ⟨fun _ => rfl, fun hne => absurd rfl hne⟩

/-- A worker stuck in PROCESSING, for the C7 witness. -/
def stuckWorker : Worker :=
  { agent_id := "w1", agent_type := AgentType.contentCreator,
    status := AgentStatus.processing }

/-- Witness for C7: `_return_agent` leaves a PROCESSING worker and the
pool untouched. -/
theorem return_agent_only_terminal_witness :
    returnAgent stuckWorker [] = (stuckWorker, []) :=
  (return_agent_only_terminal stuckWorker []).1 rfl

/-- Reduction of `Except` bind on a success value. -/
theorem except_bind_ok {ε α β : Type} (a : α) (f : α → Except ε β) :
    ((Except.ok a : Except ε α) >>= f) = f a := rfl

/-- Reduction of `Except` bind on a raised value. -/
theorem except_bind_error {ε α β : Type} (e : ε) (f : α → Except ε β) :
    ((Except.error e : Except ε α) >>= f) = Except.error e := rfl

/-- `pure` on `Except` is `Except.ok`. -/
theorem except_pure_eq {ε α : Type} (a : α) :
    (pure a : Except ε α) = Except.ok a := rfl

/-- C8 (amended): when the routing client's raw `content` fails to
parse as JSON, the content-creation, compliance, brand-voice,
health-claims and moderation handlers return a well-formed degraded
result of the same shape as their success case (the content-creation
fallback carries the raw text as the content body, the default title,
empty tags and the required disclaimers); the social-media handler does
so too whenever the request's "content" input value is a string, its
fallback embedding that string and its length. -/
theorem handlers_parse_failure_fallback (agentId : String) (env : HandlerEnv)
    (req : AgentRequest) (resp : RouteResponse)
    (hroute : env.route = Except.ok resp)
    (hparse : env.loads (resp.content.getD "\x7b\x7d") = none) :
    processContentCreation agentId env req = Except.ok (Json.obj
      [("title", Json.str "Generated Content"),
       ("content", Json.str (resp.content.getD "")),
       ("summary", Json.str "AI-generated content"),
       ("tags", Json.arr []),
       ("call_to_action", Json.str ""),
       ("disclaimers", requiredDisclaimers),
       ("seo_keywords", Json.arr []),
       ("metadata", Json.obj
         [("created_by", Json.str agentId),
          ("created_at", Json.str env.now),
          ("content_type", lookupD req.input_data "type" (Json.str "blog_post")),
          ("platform", lookupD req.input_data "platform" (Json.str "web")),
          ("audience", lookupD req.input_data "audience" (Json.str "general")),
          ("model_used", Json.str (resp.model_used.getD "unknown")),
          ("tokens_used", Json.num (resp.tokens_used.getD 0))])])
    ∧ processComplianceCheck agentId env req = Except.ok (Json.obj
      [("compliance_score", Json.num 0),
       ("is_compliant", Json.bool false),
       ("findings", Json.arr [Json.obj
          [("type", Json.str "error"),
           ("description", Json.str "Analysis failed")]]),
       ("required_disclaimers", requiredDisclaimers),
       ("brand_alignment", Json.num 0),
       ("health_claims_valid", Json.bool false),
       ("overall_assessment", Json.str "Analysis failed - manual review required")])
    ∧ processBrandVoiceValidation agentId env req = Except.ok (Json.obj
      [("voice_score", Json.num 0),
       ("tone_score", Json.num 0),
       ("language_score", Json.num 0),
       ("overall_brand_score", Json.num 0),
       ("is_brand_compliant", Json.bool false),
       ("recommendations", Json.arr [Json.str "Manual review required"]),
       ("strengths", Json.arr []),
       ("areas_for_improvement", Json.arr [Json.str "Analysis failed"])])
    ∧ processHealthClaimsValidation agentId env req = Except.ok (Json.obj
      [("health_claims_found", Json.arr []),
       ("claims_validation", Json.arr []),
       ("overall_compliance", Json.bool false),
       ("risk_level", Json.str "unknown"),
       ("recommendations", Json.arr [Json.str "Manual review required"])])
    ∧ processContentModeration agentId env req = Except.ok (Json.obj
      [("is_appropriate", Json.bool false),
       ("moderation_score", Json.num 0),
       ("flags", Json.arr [Json.obj
          [("type", Json.str "error"),
           ("description", Json.str "Moderation failed")]]),
       ("recommendations", Json.arr [Json.str "Manual review required"]),
       ("approval_status", Json.str "pending")])
    ∧ (∀ s : String, lookupD req.input_data "content" (Json.str "") = Json.str s →
        processSocialMediaOptimization agentId env req = Except.ok (Json.obj
          [("optimized_content", Json.str s),
           ("hashtags", Json.arr []),
           ("posting_time_recommendations", Json.arr []),
           ("engagement_tips", Json.arr []),
           ("visual_recommendations", Json.arr []),
           ("character_count", Json.num (s.length : Int)),
           ("platform_score", Json.num 0)])) := by
  obtain ⟨route, loads, now⟩ := env
  dsimp only at hroute hparse ⊢
  subst hroute
  refine ⟨?_, ?_, ?_, ?_, ?_, ?_⟩
  · rw [processContentCreation, except_bind_ok]
    dsimp only
    rw [hparse]
    rfl
  · rw [processComplianceCheck, except_bind_ok]
    dsimp only
    rw [hparse]
    rfl
  · rw [processBrandVoiceValidation, except_bind_ok]
    dsimp only
    rw [hparse]
    rfl
  · rw [processHealthClaimsValidation, except_bind_ok]
    dsimp only
    rw [hparse]
    rfl
  · rw [processContentModeration, except_bind_ok]
    dsimp only
    rw [hparse]
    rfl
  · intro s hs
    rw [processSocialMediaOptimization, except_bind_ok]
    dsimp only
    rw [hs, hparse]
    rfl

/-- Environment whose routing call succeeds with unparseable content. -/
def envC8 : HandlerEnv :=
  { route := Except.ok { content := some "not json" },
    loads := fun _ => none, now := "2024-01-01T00:00:00" }

/-- Social-media request whose "content" input is a number. -/
def reqC8 : AgentRequest :=
  { agent_type := AgentType.socialMediaOptimizer,
    input_data := [("content", Json.num 5)] }

/-- C8 counterexample: on a JSON parse failure the social-media
handler's fallback evaluates `len(content)` (line 514) on the *input*
content value; when that value is a number, `len` raises `TypeError`,
so this handler raises instead of returning a degraded result — "every
task-type handler returns a well-formed degraded result rather than
raising" is false as stated. -/
theorem social_media_fallback_raises :
    processSocialMediaOptimization "w1" envC8 reqC8
      = Except.error (PyExc.other "TypeError: object has no len()") := rfl

/-- Environment for the C8 witness: routing succeeds, parsing fails. -/
def envC8w : HandlerEnv :=
  { route := Except.ok { content := some "plain text answer" },
    loads := fun _ => none, now := "2024-01-01T00:00:00" }

/-- Request for the C8 witness, with a string "content" input. -/
def reqC8w : AgentRequest :=
  { agent_type := AgentType.contentCreator,
    input_data := [("content", Json.str "hello")] }

/-- Witness for the amended C8: at a concrete unparseable routing
output, the content-creation handler returns its degraded result and
the social-media handler (string content input) returns its own. -/
theorem handlers_parse_failure_fallback_witness :
    processContentCreation "w1" envC8w reqC8w = Except.ok (Json.obj
      [("title", Json.str "Generated Content"),
       ("content", Json.str "plain text answer"),
       ("summary", Json.str "AI-generated content"),
       ("tags", Json.arr []),
       ("call_to_action", Json.str ""),
       ("disclaimers", requiredDisclaimers),
       ("seo_keywords", Json.arr []),
       ("metadata", Json.obj
         [("created_by", Json.str "w1"),
          ("created_at", Json.str "2024-01-01T00:00:00"),
          ("content_type", Json.str "blog_post"),
          ("platform", Json.str "web"),
          ("audience", Json.str "general"),
          ("model_used", Json.str "unknown"),
          ("tokens_used", Json.num 0)])])
    ∧ processSocialMediaOptimization "w1" envC8w reqC8w = Except.ok (Json.obj
      [("optimized_content", Json.str "hello"),
       ("hashtags", Json.arr []),
       ("posting_time_recommendations", Json.arr []),
       ("engagement_tips", Json.arr []),
       ("visual_recommendations", Json.arr []),
       ("character_count", Json.num 5),
       ("platform_score", Json.num 0)]) :=
  ⟨(handlers_parse_failure_fallback "w1" envC8w reqC8w
      { content := some "plain text answer" } rfl rfl).1,
   (handlers_parse_failure_fallback "w1" envC8w reqC8w
      { content := some "plain text answer" } rfl rfl).2.2.2.2.2 "hello" rfl⟩

/-- C9: `health_check` reports "healthy" exactly when the non-FAILED
workers are at least 80% of the tracked total, "degraded" exactly when
they are at least 50% but under 80%, and "unhealthy" exactly when under
50%; with 10 tracked workers of which 3 are FAILED it reports
"degraded". -/
theorem health_check_thresholds :
    (∀ agents : List AgentStatus,
      (healthCheck agents = "healthy"
        ↔ 5 * activeCount agents ≥ 4 * agents.length)
      ∧ (healthCheck agents = "degraded"
        ↔ 5 * activeCount agents < 4 * agents.length
          ∧ 2 * activeCount agents ≥ agents.length)
      ∧ (healthCheck agents = "unhealthy"
        ↔ 2 * activeCount agents < agents.length))
    ∧ healthCheck (List.replicate 3 AgentStatus.failed
        ++ List.replicate 7 AgentStatus.completed) = "degraded" := by
  have hc : ∀ a t : Nat,
      (((a : Rat) ≥ (t : Rat) * (4 / 5)) ↔ 5 * a ≥ 4 * t)
      ∧ (((a : Rat) ≥ (t : Rat) * (1 / 2)) ↔ 2 * a ≥ t) := by
    intro a t
    constructor
    · rw [ge_iff_le, ge_iff_le, ← Nat.cast_le (α := Rat)]
      push_cast
      constructor <;> intro h <;> linarith
    · rw [ge_iff_le, ge_iff_le, ← Nat.cast_le (α := Rat)]
      push_cast
      constructor <;> intro h <;> linarith
  have hmain : ∀ agents : List AgentStatus,
      (healthCheck agents = "healthy"
        ↔ 5 * activeCount agents ≥ 4 * agents.length)
      ∧ (healthCheck agents = "degraded"
        ↔ 5 * activeCount agents < 4 * agents.length
          ∧ 2 * activeCount agents ≥ agents.length)
      ∧ (healthCheck agents = "unhealthy"
        ↔ 2 * activeCount agents < agents.length) := by
    intro agents
    unfold healthCheck
    split_ifs with h₁ h₂
    · have k₁ : 5 * activeCount agents ≥ 4 * agents.length :=
        (hc (activeCount agents) agents.length).1.mp h₁
      refine ⟨⟨fun _ => k₁, fun _ => rfl⟩,
        ⟨fun h => absurd h (by decide), fun h => by omega⟩,
        ⟨fun h => absurd h (by decide), fun h => by omega⟩⟩
    · have k₁ : ¬ 5 * activeCount agents ≥ 4 * agents.length :=
        fun hk => h₁ ((hc (activeCount agents) agents.length).1.mpr hk)
      have k₂ : 2 * activeCount agents ≥ agents.length :=
        (hc (activeCount agents) agents.length).2.mp h₂
      refine ⟨⟨fun h => absurd h (by decide), fun h => absurd h k₁⟩,
        ⟨fun _ => ⟨by omega, k₂⟩, fun _ => rfl⟩,
        ⟨fun h => absurd h (by decide), fun h => by omega⟩⟩
    · have k₁ : ¬ 5 * activeCount agents ≥ 4 * agents.length :=
        fun hk => h₁ ((hc (activeCount agents) agents.length).1.mpr hk)
      have k₂ : ¬ 2 * activeCount agents ≥ agents.length :=
        fun hk => h₂ ((hc (activeCount agents) agents.length).2.mpr hk)
      refine ⟨⟨fun h => absurd h (by decide), fun h => absurd h k₁⟩,
        ⟨fun h => absurd h (by decide), fun h => absurd h.2 k₂⟩,
        ⟨fun _ => by omega, fun _ => rfl⟩⟩
  refine ⟨hmain, ?_⟩
  refine ((hmain _).2.1).mpr ?_
  have hac : activeCount (List.replicate 3 AgentStatus.failed
      ++ List.replicate 7 AgentStatus.completed) = 7 := by decide
  rw [hac]
  simp

/-- Witness for C9: a pool of two workers with one FAILED (50%) is
"degraded", obtained from the threshold characterization. -/
theorem health_check_thresholds_witness :
    healthCheck [AgentStatus.failed, AgentStatus.completed] = "degraded" :=
  ((health_check_thresholds.1
    [AgentStatus.failed, AgentStatus.completed]).2.1).mpr (by decide)

/-- C10: every response from `AIAgent.process` carries a confidence
score that is either exactly 0.85 (= 17/20) or exactly 0, in [0,1]:
17/20 on the non-cache-hit COMPLETED path (where
`_calculate_confidence` ignores its argument), and the dataclass
default 0 on the cache-hit, FAILED and TIMEOUT paths. -/
theorem confidence_score_dichotomy (agentId : String) (tp : AgentType)
    (env : WEnv) (req : AgentRequest) :
    ((process agentId tp env req).1.confidence_score = 17 / 20
      ∨ (process agentId tp env req).1.confidence_score = 0)
    ∧ 0 ≤ (process agentId tp env req).1.confidence_score
    ∧ (process agentId tp env req).1.confidence_score ≤ 1
    ∧ ((process agentId tp env req).1.metadata
          = some [("cache_hit", Json.bool false)] →
        (process agentId tp env req).1.confidence_score = 17 / 20)
    ∧ ((process agentId tp env req).1.metadata
          = some [("cache_hit", Json.bool true)] →
        (process agentId tp env req).1.confidence_score = 0)
    ∧ ((process agentId tp env req).1.status = AgentStatus.failed
        ∨ (process agentId tp env req).1.status = AgentStatus.timeout →
        (process agentId tp env req).1.confidence_score = 0) := by
  obtain ⟨cg, lv, cs, el⟩ := env
  rcases cg with e | c
  · rcases e with _ | m <;>
      simp [process, processBody, except_bind_error, except_pure_eq]
  · rcases c with _ | v
    · rcases lv with e | r
      · rcases e with _ | m <;>
          simp [process, processBody, except_bind_ok, except_bind_error,
            except_pure_eq]
      · rcases cs with e | u
        · rcases e with _ | m <;>
            simp [process, processBody, except_bind_ok, except_bind_error,
              except_pure_eq]
        · simp [process, processBody, except_bind_ok, except_pure_eq,
            calculateConfidence]
          norm_num
    · by_cases hv : v.isTruthy
      · simp [process, processBody, except_bind_ok, except_pure_eq, hv]
      · rcases lv with e | r
        · rcases e with _ | m <;>
            simp [process, processBody, except_bind_ok, except_bind_error,
              except_pure_eq, hv]
        · rcases cs with e | u
          · rcases e with _ | m <;>
              simp [process, processBody, except_bind_ok, except_bind_error,
                except_pure_eq, hv]
          · simp [process, processBody, except_bind_ok, except_pure_eq, hv,
              calculateConfidence]
            norm_num

/-- Environment for the C10 witness: a clean cache miss with a
successful live call. -/
def envC10 : WEnv :=
  { cacheGet := Except.ok none,
    live := Except.ok (Json.obj [("title", Json.str "t")]),
    cacheSet := Except.ok (), elapsed := 2 }

/-- Request for the C10 witness. -/
def reqC10 : AgentRequest :=
  { agent_type := AgentType.contentCreator,
    input_data := [("brief", Json.str "X")] }

/-- Witness for C10: on a concrete non-cache-hit COMPLETED run the
confidence score is exactly 17/20. -/
theorem confidence_score_dichotomy_witness :
    (process "w1" AgentType.contentCreator envC10 reqC10).1.confidence_score
      = 17 / 20 :=
  (confidence_score_dichotomy "w1" AgentType.contentCreator envC10
    reqC10).2.2.2.1 rfl

end AIAgents
